import Mathlib

/-!
A shallow embedding of the peer-connection core of `src/ui/logic/backend.js`
(the part after the module separator: `newConnection`, `connectPeer`,
`handleSignal`, `createPeer`, `timeoutPeer`, `addToTimeout`, `stopTimeout`,
`handlePeerSuccess`, `handlePeerFail`, `addPeerMetaData`, `deathPing` and the
ping/pong helpers), together with theorems settling the frozen claims about it.

Modelling conventions:
- JavaScript strings (peer ids, connection attempt ids, instance ids) are
  `String`; the JS `<` / `>` comparison on strings is the code-unit
  lexicographic order, embedded as the executable comparator `jsStrLt`.
- Timestamps and delays (`Date.now()`, millisecond constants) are `Int`.
- JS `x || y` on numbers (`connection.lastFailure || now`) is `jsOrInt`;
  truthiness of an optional string (`peer.from`) is `jsTruthyStr` (both
  `undefined`/`null` and the empty string are falsy); truthiness of an
  optional number (`ms` in `deathPing`) is `jsTruthyInt` (`undefined` and `0`
  are falsy).
- Mutation is explicit state passing: each operation maps a `Connection`
  (plus the ambient `Swarm` values it reads) to a new `Connection`.  Where
  the code constructs a `SimplePeer`, the nondeterministic inputs
  (`Date.now()`, the fresh `peer._id`) are explicit parameters.
- Outward calls (`hub.broadcast`, `swarm.emit`, `peer.signal`) are collected
  in a result list of `Effect`s; debug logging and `console.warn`/`error`
  produce no effect.  When a transport instance is destroyed and replaced,
  the destroyed object (as still seen by its pending callbacks) is returned
  as an extra `Option Peer` component.
- The timer armed by `setTimeout` in `timeoutPeer` is the pair
  `timeoutArmed`/`timeoutEnd`; `clearTimeout` plus `connection.timeout = null`
  is `timeoutArmed := false` with zeroed bookkeeping, as in `stopTimeout`.
-/

namespace Jam

/-! ## JS primitives -/

/-- Lexicographic comparison of character lists, mirroring the JS `<`
relational operator on strings (compare code units left to right; a strict
prefix is smaller). -/
def listLtB : List Char → List Char → Bool
  | _, [] => false
  | [], _ :: _ => true
  | a :: as, b :: bs => decide (a < b) || (a == b && listLtB as bs)

/-- JS string comparison `s < t`. -/
def jsStrLt (s t : String) : Bool := listLtB s.data t.data

/-- JS `v || d` for an optional number `v`: `undefined`/`null` and `0` are
falsy and yield `d`. -/
def jsOrInt : Option Int → Int → Int
  | none, d => d
  | some v, d => if v = 0 then d else v

/-- JS truthiness of an optional string: `undefined` and `""` are falsy. -/
def jsTruthyStr : Option String → Bool
  | none => false
  | some s => !(s == "")

/-- JS truthiness of an optional number: `undefined` and `0` are falsy. -/
def jsTruthyInt : Option Int → Bool
  | none => false
  | some v => !(v == 0)

/-- JS `if (message) connection.timeoutMessage = message` in `timeoutPeer`:
a supplied non-empty message overwrites the stored one. -/
def jsMsgUpdate : Option String → String → String
  | none, old => old
  | some m, old => if m = "" then old else m

/-! ## Constants (`backend.js` lines 221-225) -/

def MAX_CONNECT_TIME : Int := 6000
def MAX_CONNECT_TIME_AFTER_ICE_DISCONNECT : Int := 2000
def MIN_MAX_CONNECT_TIME_AFTER_SIGNAL : Int := 2000
def MAX_FAIL_TIME : Int := 20000
def MAX_PING_TIME : Int := 5000

/-! ## Data model -/

/-- A transport instance (`SimplePeer` object) as the embedded code reads and
writes it: role flag, the fields attached in `createPeer`
(`peerId`, `connId`, `streams`, `connectStart`, `didSignal`), the remote
instance id `from` recorded by `handleSignal` (field `fromId` here), the
metadata copied by `addPeerMetaData` (`remoteStreamIds`), the `garbage` mark
set before destruction, and the `destroyed` flag of SimplePeer itself. -/
structure Peer where
  initiator : Bool
  peerId : String
  connId : String
  streams : List (String × Option String)
  id : String
  connectStart : Int
  didSignal : Bool
  garbage : Bool
  destroyed : Bool
  fromId : Option String
  remoteStreamIds : Option (List (String × String))
 deriving DecidableEq

/-- A `connection` record: `{swarm, peerId, connId, lastFailure}` from
`newConnection` plus the fields written later (`pc`, and the timeout
bookkeeping `timeout`/`timeoutEnd`/`timeoutMessage`).  The `swarm` reference
is passed separately as `Swarm`. -/
structure Connection where
  peerId : String
  connId : String
  pc : Option Peer
  lastFailure : Option Int
  timeoutArmed : Bool
  timeoutEnd : Int
  timeoutMessage : String
 deriving DecidableEq

/-- The swarm fields the embedded code reads: own identity, the shared
application-state snapshot, and the configured local streams. -/
structure Swarm where
  myPeerId : String
  myConnId : String
  sharedState : String
  sharedStateTime : Int
  localStreams : List (String × Option String)
 deriving DecidableEq

/-- The `data` payload of an inbound `signal` message as read by
`handleSignal`: the `youStart` tag, the `first` tag, the sending instance id
`from` (`fromId` here) and the optional `meta` (`remoteStreamIds`). -/
structure SignalData where
  youStart : Bool
  first : Bool
  fromId : Option String
  meta : Option (List (String × String))
 deriving DecidableEq

/-- Outward calls made by the embedded code: the `ping` broadcast issued by
`deathPing`, the `you-start` signal broadcast of `connectPeer`, forwarding a
payload into the transport (`peer.signal(data)`), and the
`failedConnection` event of `handlePeerFail`. -/
inductive Effect where
  | pingSent (target yourConnId : String)
  | broadcastYouStart (target yourConnId : String) (sharedState : String) (sharedStateTime : Int)
  | peerSignal (d : SignalData)
  | emitFailed
 deriving DecidableEq

/-- `newConnection({swarm, peerId, connId})` (line 241): only `peerId`,
`connId` and `lastFailure: null` are set; the timeout fields are `undefined`,
which every read treats as the values below. -/
def newConnection (peerId connId : String) : Connection :=
  { peerId := peerId
    connId := connId
    pc := none
    lastFailure := none
    timeoutArmed := false
    timeoutEnd := 0
    timeoutMessage := "" }

/-! ## Tie-break rule -/

/-- The initiator tie-break computed identically at `connectPeer` line 257 and
`handleSignal` lines 297-298:
`myPeerId > peerId || (myPeerId === peerId && myConnId > connId)`. -/
def iAmActiveB (myPeerId myConnId peerId connId : String) : Bool :=
  jsStrLt peerId myPeerId || (myPeerId == peerId && jsStrLt connId myConnId)

/-! ## Timeout supervisor -/

/-- `timeoutPeer(connection, delay, message)` (lines 437-450):
`lastFailure = lastFailure || now`, clear the old timer, extend the delay to
`Math.max(0, (timeoutEnd || 0) - now, delay)`, record the new absolute end,
overwrite the message only if one is supplied, and re-arm the timer. -/
def timeoutPeer (now delay : Int) (message : Option String) (c : Connection) : Connection :=
  { c with
    lastFailure := some (jsOrInt c.lastFailure now)
    timeoutEnd := now + max 0 (max (c.timeoutEnd - now) delay)
    timeoutMessage := jsMsgUpdate message c.timeoutMessage
    timeoutArmed := true }

/-- `addToTimeout(connection, delay)` (lines 452-454): extend only when a
timer is currently armed. -/
def addToTimeout (now delay : Int) (c : Connection) : Connection :=
  if c.timeoutArmed then timeoutPeer now delay none c else c

/-- `stopTimeout(connection)` (lines 456-461). -/
def stopTimeout (c : Connection) : Connection :=
  { c with timeoutArmed := false, timeoutMessage := "", timeoutEnd := 0 }

/-- `handlePeerSuccess(connection)` (lines 463-466). -/
def handlePeerSuccess (c : Connection) : Connection :=
  stopTimeout { c with lastFailure := none }

/-! ## Transport factory -/

/-- `pc.garbage = true` -- the mark set before every destruction. -/
def markGarbage (p : Peer) : Peer := { p with garbage := true }

/-- `pc.destroy()` -- SimplePeer destruction sets its `destroyed` flag. -/
def destroyPeer (p : Peer) : Peer := { p with destroyed := true }

/-- `createPeer(connection, initiator)` (lines 334-357, state part): destroy
any existing instance (mark garbage, then destroy), construct a fresh
`SimplePeer` with the current local streams, attach `peerId`/`connId`/
`streams`/`connectStart`/`didSignal`, and store it in `connection.pc`.
Returns the new connection and the destroyed old instance as its pending
callbacks still see it.  The callback wiring of lines 362-433 is embedded
separately as `peerOnConnect`, `peerOnError`, `peerOnIceStateChange` and
`peerOnClose`. -/
def createPeer (now : Int) (freshId : String) (sw : Swarm) (initiator : Bool)
    (c : Connection) : Connection × Option Peer :=
  let old := c.pc.map fun p => destroyPeer (markGarbage p)
  let p : Peer :=
    { initiator := initiator
      peerId := c.peerId
      connId := c.connId
      streams := sw.localStreams
      id := freshId
      connectStart := now
      didSignal := false
      garbage := false
      destroyed := false
      fromId := none
      remoteStreamIds := none }
  ({ c with pc := some p }, old)

/-! ## Negotiation protocol -/

/-- `connectPeer(connection)` (lines 245-276): issue a liveness probe
(`deathPing`, whose synchronous part broadcasts a `ping`), arm the 6000 ms
connect deadline, then either create an initiator instance (active side) or
broadcast `{youStart: true}` with the shared-state snapshot and destroy any
existing instance in place (passive side; `connection.pc` keeps pointing at
the destroyed object). -/
def connectPeer (now : Int) (freshId : String) (sw : Swarm) (c : Connection) :
    Connection × Option Peer × List Effect :=
  let pingEff := Effect.pingSent c.peerId c.connId
  let c1 := timeoutPeer now MAX_CONNECT_TIME none c
  if iAmActiveB sw.myPeerId sw.myConnId c1.peerId c1.connId then
    let r := createPeer now freshId sw true c1
    (r.1, r.2, [pingEff])
  else
    let msg := Effect.broadcastYouStart c1.peerId c1.connId sw.sharedState sw.sharedStateTime
    let c2 := { c1 with pc := c1.pc.map fun p => destroyPeer (markGarbage p) }
    (c2, none, [pingEff, msg])

/-- `handlePeerFail(connection, forcedFail)` (lines 468-483): stop the timer,
start or keep the failure window, and either emit the terminal
`failedConnection` event (when forced or the window exceeds 20000 ms) or
retry via `connectPeer`. -/
def handlePeerFail (now : Int) (freshId : String) (sw : Swarm) (c : Connection)
    (forcedFail : Bool) : Connection × Option Peer × List Effect :=
  let c1 := stopTimeout c
  let lf := jsOrInt c1.lastFailure now
  let c2 := { c1 with lastFailure := some lf }
  let failTime := now - lf
  if forcedFail || decide (failTime > MAX_FAIL_TIME) then
    (c2, none, [Effect.emitFailed])
  else
    connectPeer now freshId sw c2

/-- `addPeerMetaData(peer, data.meta)` (lines 485-494): copy the keys of the
meta object onto the peer; the only key ever sent is `remoteStreamIds`. -/
def addPeerMetaData (p : Peer) (meta : Option (List (String × String))) : Peer :=
  match meta with
  | none => p
  | some m => { p with remoteStreamIds := some m }

/-- `handleSignal(connection, {data})` (lines 278-332).  `freshId` is the id
of a peer instance created directly, `freshId2` the id of one created by the
reconnect path (`connectPeer`).  Mirrors the source order: the `youStart`
branch; the `first && !iAmActive` receiver creation (recording `data.from`);
the no-valid-instance reconnect; recording a missing `from`; the
stale-`from` silent discard; and the happy path (apply metadata, forward the
payload, and extend the deadline unless this was the receiver-creation
case). -/
def handleSignal (now : Int) (freshId freshId2 : String) (sw : Swarm)
    (c : Connection) (data : SignalData) : Connection × Option Peer × List Effect :=
  if data.youStart then
    if c.pc.isNone then
      let r := createPeer now freshId sw true c
      (r.1, r.2, [])
    else (c, none, [])
  else
    let iAmActive := iAmActiveB sw.myPeerId sw.myConnId c.peerId c.connId
    let step :=
      if data.first && !iAmActive then
        let r := createPeer now freshId sw false c
        ({ r.1 with pc := r.1.pc.map fun p => { p with fromId := data.fromId } }, r.2)
      else (c, none)
    let c1 := step.1
    match c1.pc with
    | none => connectPeer now freshId2 sw c1
    | some p =>
      if p.destroyed then connectPeer now freshId2 sw c1
      else
        let happy := fun (p1 : Peer) =>
          let p2 := addPeerMetaData p1 data.meta
          let c2 := { c1 with pc := some p2 }
          let c3 :=
            if !(data.first && !iAmActive) then
              addToTimeout now MIN_MAX_CONNECT_TIME_AFTER_SIGNAL c2
            else c2
          (c3, step.2, [Effect.peerSignal data])
        if !jsTruthyStr p.fromId then happy { p with fromId := data.fromId }
        else if p.fromId ≠ data.fromId then (c1, step.2, [])
        else happy p

/-! ## Transport callbacks (wired in `createPeer`, lines 388-433) -/

/-- The `connect` handler (lines 388-391): reports success unconditionally --
it does not consult the `garbage` flag. -/
def peerOnConnect (p : Peer) (c : Connection) : Connection :=
  handlePeerSuccess c

/-- The `error` handler (lines 412-415): returns early when the instance is
garbage, otherwise only logs; it never transitions. -/
def peerOnError (p : Peer) (c : Connection) : Connection × List Effect :=
  if p.garbage then (c, []) else (c, [])

/-- The `iceStateChange` handler (lines 416-429): on `"disconnected"` issue a
liveness probe and arm the 2000 ms post-disconnect deadline; on
`"connected"`/`"completed"` report success.  It does not consult the
`garbage` flag. -/
def peerOnIceStateChange (now : Int) (state : String) (p : Peer) (c : Connection) :
    Connection × List Effect :=
  let step :=
    if state == "disconnected" then
      (timeoutPeer now MAX_CONNECT_TIME_AFTER_ICE_DISCONNECT
        (some "peer timed out after ice disconnect") c,
       [Effect.pingSent c.peerId c.connId])
    else (c, [])
  if state == "connected" || state == "completed" then
    (handlePeerSuccess step.1, step.2)
  else step

/-- The `close` handler (lines 430-433): a no-op when the instance is
garbage, otherwise a failure transition. -/
def peerOnClose (now : Int) (freshId : String) (sw : Swarm) (p : Peer) (c : Connection) :
    Connection × Option Peer × List Effect :=
  if p.garbage then (c, none, []) else handlePeerFail now freshId sw c false

/-! ## Liveness prober -/

/-- Resolution of one probe (`ping`, lines 545-560, and `handlePong`, lines
570-576): the probe started at `start` races a `setTimeout` of `timeout` ms
against a matching `pong` arriving at `pongAt` (if any); the promise resolves
once, to the measured round-trip `pongAt - start` when the pong wins and to
`undefined` when the timer wins (both sides delete the registry entry, so the
loser cannot re-resolve). -/
def probeOutcome (start timeout : Int) (pongAt : Option Int) : Option Int :=
  match pongAt with
  | some t => if t < start + timeout then some (t - start) else none
  | none => none

/-- The resolution handler installed by `deathPing` (lines 530-539):
`if (ms) log(...) else handlePeerFail(connection, true)` -- returns whether
the forced failure path runs, i.e. whether `ms` is JS-falsy. -/
def deathPingForcesFail (ms : Option Int) : Bool := !jsTruthyInt ms

/-! ## Concrete sample values used by closed theorems -/

def sampleSwarmA : Swarm :=
  { myPeerId := "a", myConnId := "1", sharedState := "st", sharedStateTime := 7,
    localStreams := [] }

def sampleSwarmB : Swarm :=
  { myPeerId := "b", myConnId := "2", sharedState := "st", sharedStateTime := 7,
    localStreams := [] }

def sampleConnA : Connection := newConnection "a" "1"

/-- A garbage (destroyed) instance whose callbacks may still fire. -/
def sampleGarbagePeer : Peer :=
  { initiator := true, peerId := "b", connId := "1", streams := [], id := "g1",
    connectStart := 0, didSignal := true, garbage := true, destroyed := true,
    fromId := some "R", remoteStreamIds := none }

/-- A connection mid-failure with an armed deadline. -/
def sampleConnFailing : Connection :=
  { peerId := "b", connId := "1", pc := some sampleGarbagePeer,
    lastFailure := some 5, timeoutArmed := true, timeoutEnd := 1000,
    timeoutMessage := "m" }

/-- A live instance that recorded remote instance id "Y". -/
def samplePeerY : Peer :=
  { initiator := true, peerId := "b", connId := "9", streams := [], id := "py",
    connectStart := 0, didSignal := true, garbage := false, destroyed := false,
    fromId := some "Y", remoteStreamIds := none }

/-- A connection to peer "b" holding `samplePeerY`. -/
def sampleConnB : Connection :=
  { peerId := "b", connId := "9", pc := some samplePeerY,
    lastFailure := none, timeoutArmed := false, timeoutEnd := 0,
    timeoutMessage := "" }

/-- A live instance on connection `sampleConnAY` that recorded `from = "Y"`. -/
def samplePeerYa : Peer :=
  { initiator := true, peerId := "a", connId := "1", streams := [], id := "pa",
    connectStart := 0, didSignal := true, garbage := false, destroyed := false,
    fromId := some "Y", remoteStreamIds := none }

def sampleConnAY : Connection :=
  { peerId := "a", connId := "1", pc := some samplePeerYa,
    lastFailure := none, timeoutArmed := false, timeoutEnd := 0,
    timeoutMessage := "" }

/-- An inbound `first` negotiation signal from instance "X". -/
def sampleFirstSignalX : SignalData :=
  { youStart := false, first := true, fromId := some "X", meta := none }

/-- An inbound non-`first` negotiation signal from instance "X". -/
def sampleSignalX : SignalData :=
  { youStart := false, first := false, fromId := some "X", meta := none }

/-- An inbound `{youStart: true}` signal payload. -/
def sampleYouStart : SignalData :=
  { youStart := true, first := false, fromId := none, meta := none }

/-! ## Properties of the JS string order -/

theorem listLtB_irrefl (a : List Char) : listLtB a a = false := by
  induction a with
  | nil => rfl
  | cons x xs ih => simp [listLtB, ih]

theorem listLtB_asymm (a b : List Char) (h : listLtB a b = true) : listLtB b a = false := by
  induction a generalizing b with
  | nil =>
    cases b with
    | nil => simp [listLtB] at h
    | cons x xs => simp [listLtB]
  | cons x xs ih =>
    cases b with
    | nil => simp [listLtB] at h
    | cons y ys =>
      simp only [listLtB, Bool.or_eq_true, Bool.and_eq_true, decide_eq_true_iff, beq_iff_eq] at h
      simp only [listLtB, Bool.or_eq_false_iff, Bool.and_eq_false_iff, decide_eq_false_iff_not,
        beq_eq_false_iff_ne, ne_eq]
      rcases h with h | ⟨rfl, h⟩
      · exact ⟨lt_asymm h, Or.inl fun hyx => absurd (hyx ▸ h) (lt_irrefl _)⟩
      · exact ⟨lt_irrefl _, Or.inr (ih _ h)⟩

theorem listLtB_total (a b : List Char) (h1 : listLtB a b = false) (h2 : listLtB b a = false) :
    a = b := by
  induction a generalizing b with
  | nil =>
    cases b with
    | nil => rfl
    | cons y ys => simp [listLtB] at h1
  | cons x xs ih =>
    cases b with
    | nil => simp [listLtB] at h2
    | cons y ys =>
      simp only [listLtB, Bool.or_eq_false_iff, Bool.and_eq_false_iff, decide_eq_false_iff_not,
        beq_eq_false_iff_ne, ne_eq] at h1 h2
      obtain ⟨hxy, h1'⟩ := h1
      obtain ⟨hyx, h2'⟩ := h2
      have hxyeq : x = y := le_antisymm (not_lt.mp hyx) (not_lt.mp hxy)
      subst hxyeq
      rcases h1' with h1' | h1'
      · exact absurd rfl h1'
      · rcases h2' with h2' | h2'
        · exact absurd rfl h2'
        · rw [ih _ h1' h2']

theorem jsStrLt_self (s : String) : jsStrLt s s = false := listLtB_irrefl s.data

theorem jsStrLt_asymm (s t : String) (h : jsStrLt s t = true) : jsStrLt t s = false :=
  listLtB_asymm s.data t.data h

theorem jsStrLt_total (s t : String) (h1 : jsStrLt s t = false) (h2 : jsStrLt t s = false) :
    s = t := by
  cases s with
  | mk sd =>
    cases t with
    | mk td => exact congrArg String.mk (listLtB_total sd td h1 h2)

/-! ## Claim theorems -/

/-- Claim C1: for every pair of distinct (peerId, connId) attempt pairs,
exactly one of the two sides evaluates as active under the tie-break rule of
`connectPeer` and `handleSignal`: swapping the roles of the two pairs yields
the complementary boolean, so never both sides and never neither side are
active. -/
theorem tieBreak_exactly_one_active (p1 c1 p2 c2 : String)
    (h : ¬(p1 = p2 ∧ c1 = c2)) :
    iAmActiveB p1 c1 p2 c2 = !iAmActiveB p2 c2 p1 c1 := by
  unfold iAmActiveB
  by_cases hp : p1 = p2
  · subst hp
    have hc : c1 ≠ c2 := fun hcc => h ⟨rfl, hcc⟩
    simp only [jsStrLt_self, beq_self_eq_true, Bool.true_and, Bool.false_or]
    cases hlt : jsStrLt c1 c2 with
    | true => simp [jsStrLt_asymm _ _ hlt]
    | false =>
      cases hlt2 : jsStrLt c2 c1 with
      | true => simp
      | false => exact absurd (jsStrLt_total _ _ hlt hlt2) hc
  · have hb1 : (p1 == p2) = false := beq_eq_false_iff_ne.mpr hp
    have hb2 : (p2 == p1) = false := beq_eq_false_iff_ne.mpr (Ne.symm hp)
    simp only [hb1, hb2, Bool.false_and, Bool.or_false]
    cases hlt : jsStrLt p2 p1 with
    | true => simp [jsStrLt_asymm _ _ hlt]
    | false =>
      cases hlt2 : jsStrLt p1 p2 with
      | true => simp
      | false => exact absurd (jsStrLt_total _ _ hlt2 hlt) hp

/-- Witness for C1 at a concrete pair of distinct attempt pairs. -/
theorem tieBreak_exactly_one_active_witness :
    iAmActiveB "a" "x" "b" "y" = !iAmActiveB "b" "y" "a" "x" :=
  tieBreak_exactly_one_active "a" "x" "b" "y" (by decide)

/-- Claim C9: `handlePeerSuccess` clears the armed deadline, resets the
remaining-time bookkeeping to zero, and resets the failure window to unset,
on a connection in any state. -/
theorem handlePeerSuccess_spec (c : Connection) :
    (handlePeerSuccess c).lastFailure = none ∧
    (handlePeerSuccess c).timeoutArmed = false ∧
    (handlePeerSuccess c).timeoutEnd = 0 ∧
    (handlePeerSuccess c).timeoutMessage = "" :=
  ⟨rfl, rfl, rfl, rfl⟩

/-- Shared helper: `connectPeer` leaves `lastFailure` at the value its
`timeoutPeer` call computes. -/
theorem connectPeer_fst_lastFailure (now : Int) (freshId : String) (sw : Swarm)
    (c : Connection) :
    (connectPeer now freshId sw c).1.lastFailure = some (jsOrInt c.lastFailure now) := by
  unfold connectPeer createPeer timeoutPeer
  by_cases h : iAmActiveB sw.myPeerId sw.myConnId c.peerId c.connId
  · simp [h]
  · simp [h]

/-- Shared helper: JS `v || d` keeps a non-zero stored value. -/
theorem jsOrInt_some_of_ne (v d : Int) (h : v ≠ 0) : jsOrInt (some v) d = v := by
  simp [jsOrInt, h]

/-- Claim C10: arming a deadline via `timeoutPeer` also initializes the
failure window: on a connection with `lastFailure` unset, `timeoutPeer` sets
it to the current time -- and hence so does `connectPeer`, which arms the
6000 ms connect deadline through it. -/
theorem timeoutPeer_starts_failure_window (now delay : Int) (msg : Option String)
    (freshId : String) (sw : Swarm) (c : Connection) (h : c.lastFailure = none) :
    (timeoutPeer now delay msg c).lastFailure = some now ∧
    (connectPeer now freshId sw c).1.lastFailure = some now := by
  constructor
  · simp [timeoutPeer, h, jsOrInt]
  · rw [connectPeer_fst_lastFailure]
    simp [h, jsOrInt]

/-- Witness for C10 on a fresh connection. -/
theorem timeoutPeer_starts_failure_window_witness :
    (timeoutPeer 100 6000 none sampleConnA).lastFailure = some 100 ∧
    (connectPeer 100 "fw" sampleSwarmA sampleConnA).1.lastFailure = some 100 :=
  timeoutPeer_starts_failure_window 100 6000 none "fw" sampleSwarmA sampleConnA rfl

/-- Claim C3: on a connection with an armed deadline, `timeoutPeer` computes
the new delay as max(0, remaining time on the current deadline, requested
delay), so the effective firing time never moves earlier. -/
theorem timeoutPeer_never_shortens (now delay : Int) (message : Option String)
    (c : Connection) (h : c.timeoutArmed = true) :
    (timeoutPeer now delay message c).timeoutEnd =
      now + max 0 (max (c.timeoutEnd - now) delay) ∧
    c.timeoutEnd ≤ (timeoutPeer now delay message c).timeoutEnd := by
  refine ⟨rfl, ?_⟩
  show c.timeoutEnd ≤ now + max 0 (max (c.timeoutEnd - now) delay)
  have h1 : c.timeoutEnd - now ≤ max (c.timeoutEnd - now) delay := le_max_left _ _
  have h2 : max (c.timeoutEnd - now) delay ≤ max 0 (max (c.timeoutEnd - now) delay) :=
    le_max_right _ _
  linarith

/-- Witness for C3: arming a 5 ms deadline over a deadline ending at 1000
does not shorten it. -/
theorem timeoutPeer_never_shortens_witness :
    (timeoutPeer 10 5 none sampleConnFailing).timeoutEnd =
      10 + max 0 (max (sampleConnFailing.timeoutEnd - 10) 5) ∧
    sampleConnFailing.timeoutEnd ≤ (timeoutPeer 10 5 none sampleConnFailing).timeoutEnd :=
  timeoutPeer_never_shortens 10 5 none sampleConnFailing rfl

/-- Claim C4 fails on the code at round-trip time 0: a matching pong that
arrives in the same millisecond the ping was sent resolves the probe with
measured round-trip time 0, yet the `deathPing` resolution handler
(`if (ms) ... else handlePeerFail(connection, true)`) treats 0 as falsy and
forces a failure.  A pong with positive round-trip time and a timed-out probe
behave as the claim says. -/
theorem deathPing_zero_rtt_bug :
    probeOutcome 1000 MAX_PING_TIME (some 1000) = some 0 ∧
    deathPingForcesFail (probeOutcome 1000 MAX_PING_TIME (some 1000)) = true ∧
    probeOutcome 1000 MAX_PING_TIME (some 1040) = some 40 ∧
    deathPingForcesFail (probeOutcome 1000 MAX_PING_TIME (some 1040)) = false ∧
    deathPingForcesFail (probeOutcome 1000 MAX_PING_TIME none) = true := by
  decide

/-- Claim C2 fails on the code: the `iceStateChange` handler (like the
`connect` handler) does not consult the `garbage` flag, so a garbage
instance whose ICE state reaches "connected" still performs the success
transition `handlePeerSuccess` -- here it clears the failure window and the
armed deadline of the connection. -/
theorem garbage_ice_connected_still_succeeds :
    sampleGarbagePeer.garbage = true ∧
    sampleConnFailing.lastFailure = some 5 ∧
    sampleConnFailing.timeoutArmed = true ∧
    (peerOnIceStateChange 50 "connected" sampleGarbagePeer sampleConnFailing).1.lastFailure
      = none ∧
    (peerOnIceStateChange 50 "connected" sampleGarbagePeer sampleConnFailing).1.timeoutArmed
      = false := by
  decide

/-- Claim C2 amended: for a transport instance whose garbage flag is set, the
`error` and `close` callbacks are complete no-ops -- in particular no failure
transition (`handlePeerFail`) is ever triggered by them; the `connect` and
`iceStateChange` callbacks, however, are not guarded by the garbage flag and
can still trigger the success transition `handlePeerSuccess`. -/
theorem garbage_close_error_no_transition (now : Int) (freshId : String) (sw : Swarm)
    (p : Peer) (c : Connection) (h : p.garbage = true) :
    peerOnClose now freshId sw p c = (c, none, []) ∧
    peerOnError p c = (c, []) := by
  unfold peerOnClose peerOnError
  rw [h]
  simp

/-- Witness for the amended C2 on a concrete garbage instance. -/
theorem garbage_close_error_no_transition_witness :
    peerOnClose 0 "f" sampleSwarmA sampleGarbagePeer sampleConnFailing =
      (sampleConnFailing, none, []) ∧
    peerOnError sampleGarbagePeer sampleConnFailing = (sampleConnFailing, []) :=
  garbage_close_error_no_transition 0 "f" sampleSwarmA sampleGarbagePeer sampleConnFailing rfl

/-- Claim C5: `handlePeerFail(connection, forced)` clears the armed deadline;
when `forced` or the failure window exceeds 20000 ms it emits the terminal
`failedConnection` event with `lastFailure` left set; otherwise it re-invokes
`connectPeer` on the same connection with `lastFailure` preserved, so the
accumulated failure duration persists across consecutive retries.  (The
hypothesis excludes the time value 0, which JS `||` cannot store.) -/
theorem handlePeerFail_spec (now : Int) (freshId : String) (sw : Swarm)
    (c : Connection) (forced : Bool)
    (hlf : jsOrInt c.lastFailure now ≠ 0) :
    ((forced = true ∨ now - jsOrInt c.lastFailure now > MAX_FAIL_TIME) →
       (handlePeerFail now freshId sw c forced).1.timeoutArmed = false ∧
       (handlePeerFail now freshId sw c forced).1.timeoutEnd = 0 ∧
       (handlePeerFail now freshId sw c forced).1.lastFailure =
         some (jsOrInt c.lastFailure now) ∧
       (handlePeerFail now freshId sw c forced).2.2 = [Effect.emitFailed]) ∧
    ((forced = false ∧ now - jsOrInt c.lastFailure now ≤ MAX_FAIL_TIME) →
       handlePeerFail now freshId sw c forced =
         connectPeer now freshId sw
           { stopTimeout c with lastFailure := some (jsOrInt c.lastFailure now) } ∧
       (handlePeerFail now freshId sw c forced).1.lastFailure =
         some (jsOrInt c.lastFailure now)) := by
  constructor
  · intro hcond
    have hif : (forced || decide (now - jsOrInt c.lastFailure now > MAX_FAIL_TIME)) = true := by
      rcases hcond with h | h
      · simp [h]
      · simp [h]
    unfold handlePeerFail
    simp only [stopTimeout] at *
    simp [hif, stopTimeout]
  · rintro ⟨hf, hle⟩
    have hif : (forced || decide (now - jsOrInt c.lastFailure now > MAX_FAIL_TIME)) = false := by
      simp [hf, not_lt.mpr hle]
    have heq : handlePeerFail now freshId sw c forced =
        connectPeer now freshId sw
          { stopTimeout c with lastFailure := some (jsOrInt c.lastFailure now) } := by
      unfold handlePeerFail
      simp [hif, stopTimeout]
    refine ⟨heq, ?_⟩
    rw [heq, connectPeer_fst_lastFailure]
    show some (jsOrInt (some (jsOrInt c.lastFailure now)) now) = _
    rw [jsOrInt_some_of_ne _ _ hlf]

/-- Witness for C5: a non-forced failure 25 ms into the window retries via
`connectPeer` and preserves the failure start time. -/
theorem handlePeerFail_spec_witness :
    handlePeerFail 30 "f" sampleSwarmA sampleConnFailing false =
      connectPeer 30 "f" sampleSwarmA
        { stopTimeout sampleConnFailing with
            lastFailure := some (jsOrInt sampleConnFailing.lastFailure 30) } ∧
    (handlePeerFail 30 "f" sampleSwarmA sampleConnFailing false).1.lastFailure =
      some (jsOrInt sampleConnFailing.lastFailure 30) :=
  (handlePeerFail_spec 30 "f" sampleSwarmA sampleConnFailing false (by decide)).2
    ⟨rfl, by decide⟩

/-- Claim C6: on the active side `connectPeer` destroys any existing
transport instance (marking it garbage before destruction) and stores a
fresh initiator instance; on the passive side it broadcasts a signal
carrying `youStart` together with the shared application-state snapshot,
destroys any existing instance in place, and creates no new one. -/
theorem connectPeer_spec (now : Int) (freshId : String) (sw : Swarm) (c : Connection) :
    (iAmActiveB sw.myPeerId sw.myConnId c.peerId c.connId = true →
       (connectPeer now freshId sw c).1.pc =
         some { initiator := true, peerId := c.peerId, connId := c.connId,
                streams := sw.localStreams, id := freshId, connectStart := now,
                didSignal := false, garbage := false, destroyed := false,
                fromId := none, remoteStreamIds := none } ∧
       (connectPeer now freshId sw c).2.1 =
         c.pc.map (fun p => destroyPeer (markGarbage p)) ∧
       (connectPeer now freshId sw c).2.2 = [Effect.pingSent c.peerId c.connId]) ∧
    (iAmActiveB sw.myPeerId sw.myConnId c.peerId c.connId = false →
       (connectPeer now freshId sw c).2.2 =
         [Effect.pingSent c.peerId c.connId,
          Effect.broadcastYouStart c.peerId c.connId sw.sharedState sw.sharedStateTime] ∧
       (connectPeer now freshId sw c).1.pc =
         c.pc.map (fun p => destroyPeer (markGarbage p)) ∧
       (connectPeer now freshId sw c).2.1 = none) := by
  constructor
  · intro h
    unfold connectPeer createPeer timeoutPeer
    simp [h]
  · intro h
    unfold connectPeer timeoutPeer
    simp [h]

/-- Witness for C6 on the active side: peer "b" connecting to "a". -/
theorem connectPeer_spec_witness :
    (connectPeer 100 "fr" sampleSwarmB sampleConnA).1.pc =
      some { initiator := true, peerId := sampleConnA.peerId, connId := sampleConnA.connId,
             streams := sampleSwarmB.localStreams, id := "fr", connectStart := 100,
             didSignal := false, garbage := false, destroyed := false,
             fromId := none, remoteStreamIds := none } ∧
    (connectPeer 100 "fr" sampleSwarmB sampleConnA).2.1 =
      sampleConnA.pc.map (fun p => destroyPeer (markGarbage p)) ∧
    (connectPeer 100 "fr" sampleSwarmB sampleConnA).2.2 =
      [Effect.pingSent sampleConnA.peerId sampleConnA.connId] :=
  (connectPeer_spec 100 "fr" sampleSwarmB sampleConnA).1 (by decide)

/-- Claim C7: on an inbound `{youStart: true}` signal, `handleSignal` creates
an initiator transport instance iff the connection currently has none; when
any instance exists -- live or destroyed -- the connection is left untouched
and no other action is taken. -/
theorem handleSignal_youStart_spec (now : Int) (i1 i2 : String) (sw : Swarm)
    (c : Connection) (d : SignalData) (hys : d.youStart = true) :
    (c.pc = none →
       (handleSignal now i1 i2 sw c d).1 =
         { c with
           pc := some { initiator := true, peerId := c.peerId, connId := c.connId,
                        streams := sw.localStreams, id := i1, connectStart := now,
                        didSignal := false, garbage := false, destroyed := false,
                        fromId := none, remoteStreamIds := none } } ∧
       (handleSignal now i1 i2 sw c d).2.1 = none ∧
       (handleSignal now i1 i2 sw c d).2.2 = []) ∧
    (∀ q, c.pc = some q → handleSignal now i1 i2 sw c d = (c, none, [])) := by
  constructor
  · intro hpc
    unfold handleSignal createPeer
    simp [hys, hpc]
  · intro q hpc
    unfold handleSignal
    simp [hys, hpc]

/-- Witness for C7: a `youStart` payload on a fresh connection creates an
initiator instance. -/
theorem handleSignal_youStart_spec_witness :
    (handleSignal 100 "y1" "y2" sampleSwarmA sampleConnA sampleYouStart).1 =
      { sampleConnA with
        pc := some { initiator := true, peerId := sampleConnA.peerId,
                     connId := sampleConnA.connId,
                     streams := sampleSwarmA.localStreams, id := "y1", connectStart := 100,
                     didSignal := false, garbage := false, destroyed := false,
                     fromId := none, remoteStreamIds := none } } ∧
    (handleSignal 100 "y1" "y2" sampleSwarmA sampleConnA sampleYouStart).2.1 = none ∧
    (handleSignal 100 "y1" "y2" sampleSwarmA sampleConnA sampleYouStart).2.2 = [] :=
  (handleSignal_youStart_spec 100 "y1" "y2" sampleSwarmA sampleConnA sampleYouStart rfl).1 rfl

/-- Claim C8 fails on the code: a non-`youStart` signal marked `first`,
received by the non-active side while its instance has recorded a different
`from`, is not discarded -- `handleSignal` replaces the instance with a fresh
receiver recording the `from` of the payload and forwards the payload into it. -/
theorem stale_from_first_signal_counterexample :
    samplePeerY.fromId = some "Y" ∧
    sampleFirstSignalX.fromId = some "X" ∧
    sampleConnB.pc = some samplePeerY ∧
    (handleSignal 100 "pn" "pn2" sampleSwarmA sampleConnB sampleFirstSignalX).2.2 =
      [Effect.peerSignal sampleFirstSignalX] ∧
    (handleSignal 100 "pn" "pn2" sampleSwarmA sampleConnB sampleFirstSignalX).1.pc ≠
      some samplePeerY := by
  decide

/-- Claim C8 amended: a non-`youStart` signal that is not the
first-signal-to-non-active-side case, arriving while the connection holds a
live (non-destroyed) instance with a recorded (non-empty) `from` different
from the `from` carried by the payload, is discarded silently: nothing is forwarded, no
metadata is applied, no deadline is extended, and neither the connection nor
its instance changes. -/
theorem handleSignal_stale_from_discard (now : Int) (i1 i2 : String) (sw : Swarm)
    (c : Connection) (d : SignalData) (p : Peer)
    (hys : d.youStart = false)
    (hnf : ¬(d.first = true ∧
             iAmActiveB sw.myPeerId sw.myConnId c.peerId c.connId = false))
    (hpc : c.pc = some p) (hlive : p.destroyed = false)
    (hfrom : jsTruthyStr p.fromId = true)
    (hne : p.fromId ≠ d.fromId) :
    handleSignal now i1 i2 sw c d = (c, none, []) := by
  have hb : (d.first && !iAmActiveB sw.myPeerId sw.myConnId c.peerId c.connId) = false := by
    cases h1 : d.first with
    | false => simp
    | true =>
      cases h2 : iAmActiveB sw.myPeerId sw.myConnId c.peerId c.connId with
      | false => exact absurd ⟨h1, h2⟩ hnf
      | true => simp
  unfold handleSignal
  simp [hys, hb, hpc, hlive, hfrom, hne]

/-- Witness for the amended C8: the active side discards a signal whose
`from` "X" does not match the recorded "Y", changing nothing. -/
theorem handleSignal_stale_from_discard_witness :
    handleSignal 100 "w1" "w2" sampleSwarmB sampleConnAY sampleSignalX =
      (sampleConnAY, none, []) :=
  handleSignal_stale_from_discard 100 "w1" "w2" sampleSwarmB sampleConnAY sampleSignalX
    samplePeerYa rfl (by decide) rfl rfl (by decide) (by decide)

end Jam
